import Mathlib

/-!
Shallow embedding of `src/server.js`, a credential-relay server:
in-memory request stores (`passwordRequests`, `otpRequests`, `pinRequests`,
`blockedRequests`, `requestMeta`), one submit/check endpoint pair per
verification stage, and a Telegram webhook that dispatches operator decisions.

Outbound I/O (`sendTelegram`, `answerCallback`) has no effect on the stores;
the embedding records only the observable flags the claims need (whether the
callback was acknowledged, whether a feedback notification was sent).
JavaScript object maps keyed by strings are embedded as functions
`String → Option v`; `none` is an absent key, and the stored JS `null`
decision is the inner `none` of `Option (Option Bool)`.
-/

namespace FidoServer

/-- A tenant loaded from `BOT<N>_TOKEN` / `BOT<N>_CHATID` (server.js:20-31). -/
structure Bot where
  botId : String
  token : String
  chatId : String
deriving DecidableEq

/-- `requestMeta[requestId] = { name, phone, botId }` (server.js:15). -/
structure Meta where
  name : String
  phone : String
  botId : String
deriving DecidableEq

/-- The five module-level memory stores (server.js:11-15).
A decision map entry is `none` (key absent), `some none` (stored `null`,
pending) or `some (some b)` (decided). `blockedRequests` only ever stores
`true`, but the type allows any `Bool` as a JS object would. -/
structure Store where
  passwordRequests : String → Option (Option Bool)
  otpRequests : String → Option (Option Bool)
  pinRequests : String → Option (Option Bool)
  blockedRequests : String → Option Bool
  requestMeta : String → Option Meta

/-- The store at process start: all five maps empty. -/
def emptyStore : Store :=
  ⟨fun _ => none, fun _ => none, fun _ => none, fun _ => none, fun _ => none⟩

/-- JS object assignment `m[k] = v` (pointwise map update). -/
def update {α : Type} (f : String → Option α) (k : String) (v : Option α) :
    String → Option α :=
  fun i => if i = k then v else f i

/-- `getBot` (server.js:48-50): `bots.find(b => b.botId === botId)`. -/
def getBot (bots : List Bot) (botId : String) : Option Bot :=
  bots.find? (fun b => b.botId == botId)

/-- Submit endpoint outcome: `400 {error:'Invalid bot'}` or `200 {requestId}`. -/
inductive SubmitResult where
  | badRequest
  | ok (requestId : String)
deriving DecidableEq

/-- `POST /submit-password` (server.js:94-122). `uuidv4()` is modelled by the
externally supplied `freshId`. On an unknown `botId` the handler returns 400
before any store mutation; otherwise it records a pending entry (`null`) and
the metadata, fires the notification (no store effect), and returns the id. -/
def submitPassword (bots : List Bot) (name phone password botId freshId : String)
    (s : Store) : SubmitResult × Store :=
  match getBot bots botId with
  | none => (SubmitResult.badRequest, s)
  | some _ =>
      (SubmitResult.ok freshId,
       { s with
           passwordRequests := update s.passwordRequests freshId (some none),
           requestMeta := update s.requestMeta freshId (some ⟨name, phone, botId⟩) })

/-- `POST /submit-otp` (server.js:129-157), same shape as the password stage. -/
def submitOtp (bots : List Bot) (name phone otp botId freshId : String)
    (s : Store) : SubmitResult × Store :=
  match getBot bots botId with
  | none => (SubmitResult.badRequest, s)
  | some _ =>
      (SubmitResult.ok freshId,
       { s with
           otpRequests := update s.otpRequests freshId (some none),
           requestMeta := update s.requestMeta freshId (some ⟨name, phone, botId⟩) })

/-- `POST /submit-pin` (server.js:164-193), same shape as the password stage. -/
def submitPin (bots : List Bot) (name phone pin botId freshId : String)
    (s : Store) : SubmitResult × Store :=
  match getBot bots botId with
  | none => (SubmitResult.badRequest, s)
  | some _ =>
      (SubmitResult.ok freshId,
       { s with
           pinRequests := update s.pinRequests freshId (some none),
           requestMeta := update s.requestMeta freshId (some ⟨name, phone, botId⟩) })

/-- `GET /check-password/:id` (server.js:124-126):
`{ approved: passwordRequests[id] ?? null }` — absent and `null` both read
back as `null` (`none`). -/
def checkPassword (s : Store) (id : String) : Option Bool :=
  (s.passwordRequests id).getD none

/-- `GET /check-otp/:id` (server.js:159-161). -/
def checkOtp (s : Store) (id : String) : Option Bool :=
  (s.otpRequests id).getD none

/-- The two response shapes of `GET /check-pin/:id`: `{blocked: true}` or
`{approved: v}` (a `blocked: false` field is never emitted; non-blocked is
signalled by the `approved` shape). -/
inductive PinCheck where
  | blocked
  | approved (v : Option Bool)
deriving DecidableEq

/-- `GET /check-pin/:id` (server.js:195-200): the truthiness test
`if (blockedRequests[id])` short-circuits to `{blocked: true}`, else the
decision map is read as in the other stages. -/
def checkPin (s : Store) (id : String) : PinCheck :=
  if (s.blockedRequests id).getD false then PinCheck.blocked
  else PinCheck.approved ((s.pinRequests id).getD none)

/-- A Telegram `callback_query`: the acknowledgment token `id` and the button
payload `data`. -/
structure Callback where
  id : String
  data : String

/-- JS `String.prototype.split(':')` on the underlying character list:
splits at every `':'`, keeps empty segments, and yields `[""]` on `""`. -/
def splitColon : List Char → List (List Char)
  | [] => [[]]
  | c :: rest =>
      let r := splitColon rest
      if c = ':' then [] :: r else (c :: r.headD []) :: r.tail

/-- JS `data.split(':')` lifted to `String`. -/
def jsSplitColon (s : String) : List String :=
  (splitColon s.data).map String.mk

/-- `const [action, requestId] = cb.data.split(':')` (server.js:210).
When the payload has no `:` the JS destructuring leaves `requestId`
`undefined`, which a later object-key use coerces to the string
`"undefined"`; the embedding applies that coercion at the parse. -/
def parseAction (data : String) : String × String :=
  let parts := jsSplitColon data
  (parts.headD "", (parts[1]?).getD "undefined")

/-- Store mutation and feedback text of the webhook's `if` chain
(server.js:214-222). The source uses seven independent `if`s whose guards
are mutually exclusive string equalities, so an `if … else if …` chain is
semantically identical. Unrecognized actions fall through with the store
untouched and `feedback` left `""`. -/
def applyAction (action requestId : String) (s : Store) : Store × String :=
  if action = "pass_ok" then
    ({ s with passwordRequests := update s.passwordRequests requestId (some (some true)) },
     "✅ Password approved")
  else if action = "pass_bad" then
    ({ s with passwordRequests := update s.passwordRequests requestId (some (some false)) },
     "❌ Password rejected")
  else if action = "otp_ok" then
    ({ s with otpRequests := update s.otpRequests requestId (some (some true)) },
     "✅ OTP approved")
  else if action = "otp_bad" then
    ({ s with otpRequests := update s.otpRequests requestId (some (some false)) },
     "❌ OTP rejected")
  else if action = "pin_ok" then
    ({ s with pinRequests := update s.pinRequests requestId (some (some true)) },
     "✅ PIN approved")
  else if action = "pin_bad" then
    ({ s with pinRequests := update s.pinRequests requestId (some (some false)) },
     "❌ PIN rejected")
  else if action = "pin_block" then
    ({ s with blockedRequests := update s.blockedRequests requestId (some true) },
     "🛑 User blocked")
  else
    (s, "")

/-- The action strings the webhook's `if` chain recognizes (server.js:214-222). -/
def recognizedActions : List String :=
  ["pass_ok", "pass_bad", "otp_ok", "otp_bad", "pin_ok", "pin_bad", "pin_block"]

/-- Observable outcome of `POST /telegram-webhook/:botId`: HTTP status, whether
`answerCallback` was invoked, and whether the `ACTION TAKEN` feedback
notification was sent. -/
structure WebhookOut where
  status : Nat
  acked : Bool
  feedbackSent : Bool
deriving DecidableEq

/-- `POST /telegram-webhook/:botId` (server.js:203-237). Unknown bot → 404
with nothing else done; missing `callback_query` → plain 200; otherwise the
payload is parsed, the action applied to the store, feedback sent only when
the action was recognized (`feedback` non-empty) AND the id had metadata,
and the callback is always acknowledged. -/
def telegramWebhook (bots : List Bot) (botId : String) (callback : Option Callback)
    (s : Store) : WebhookOut × Store :=
  match getBot bots botId with
  | none => (⟨404, false, false⟩, s)
  | some _ =>
      match callback with
      | none => (⟨200, false, false⟩, s)
      | some cb =>
          let p := parseAction cb.data
          let meta := s.requestMeta p.2
          let r := applyAction p.1 p.2 s
          (⟨200, true, r.2 != "" && meta.isSome⟩, r.1)

/-- One externally triggered store-mutating operation of the server: the three
submit endpoints (with their `uuidv4()` value supplied as `freshId`) and the
webhook. The check endpoints are pure reads and need no event. -/
inductive Op where
  | submitPassword (name phone password botId freshId : String)
  | submitOtp (name phone otp botId freshId : String)
  | submitPin (name phone pin botId freshId : String)
  | webhook (botId : String) (callback : Option Callback)

/-- Run one operation; the second component is the request id returned to the
client when the operation was a successful submission. -/
def stepOp (bots : List Bot) (op : Op) (s : Store) : Store × Option String :=
  match op with
  | Op.submitPassword n p pw b f =>
      match submitPassword bots n p pw b f s with
      | (SubmitResult.badRequest, s1) => (s1, none)
      | (SubmitResult.ok rid, s1) => (s1, some rid)
  | Op.submitOtp n p o b f =>
      match submitOtp bots n p o b f s with
      | (SubmitResult.badRequest, s1) => (s1, none)
      | (SubmitResult.ok rid, s1) => (s1, some rid)
  | Op.submitPin n p pi b f =>
      match submitPin bots n p pi b f s with
      | (SubmitResult.badRequest, s1) => (s1, none)
      | (SubmitResult.ok rid, s1) => (s1, some rid)
  | Op.webhook b cb => ((telegramWebhook bots b cb s).2, none)

/-- Run a sequence of operations left to right. -/
def runOps (bots : List Bot) : List Op → Store → Store
  | [], s => s
  | op :: rest, s => runOps bots rest (stepOp bots op s).1

/-- The request ids handed out to clients over a run, in order. -/
def issuedIds (bots : List Bot) : List Op → Store → List String
  | [], _ => []
  | op :: rest, s =>
      (stepOp bots op s).2.toList ++ issuedIds bots rest (stepOp bots op s).1

/-- The `uuidv4()` values consumed over a run (one per submit operation,
whether or not the submission succeeds). -/
def opFreshIds : List Op → List String
  | [] => []
  | op :: rest =>
      (match op with
       | Op.submitPassword _ _ _ _ f => [f]
       | Op.submitOtp _ _ _ _ f => [f]
       | Op.submitPin _ _ _ _ f => [f]
       | Op.webhook _ _ => []) ++ opFreshIds rest

/-- A one-tenant registry used by concrete witnesses. -/
def bots1 : List Bot := [⟨"bot1", "tok1", "chat1"⟩]


theorem update_same {α : Type} (f : String → Option α) (k : String) (v : Option α) :
    update f k v k = v := by simp [update]

theorem update_other {α : Type} (f : String → Option α) (k j : String) (v : Option α)
    (h : j ≠ k) : update f k v j = f j := by simp [update, h]

theorem parseAction_eq (data action rid : String)
    (h : jsSplitColon data = [action, rid]) : parseAction data = (action, rid) := by
  unfold parseAction
  rw [h]
  rfl

theorem telegramWebhook_known (bots : List Bot) (b : Bot) (botId : String) (cb : Callback)
    (s : Store) (hb : getBot bots botId = some b) :
    telegramWebhook bots botId (some cb) s =
      (⟨200, true,
        (applyAction (parseAction cb.data).1 (parseAction cb.data).2 s).2 != "" &&
          (s.requestMeta (parseAction cb.data).2).isSome⟩,
       (applyAction (parseAction cb.data).1 (parseAction cb.data).2 s).1) := by
  unfold telegramWebhook
  rw [hb]

theorem applyAction_requestMeta (action rid : String) (s : Store) :
    (applyAction action rid s).1.requestMeta = s.requestMeta := by
  unfold applyAction
  split_ifs <;> rfl

theorem applyAction_other_ids (action rid : String) (s : Store) (j : String) (hj : j ≠ rid) :
    (applyAction action rid s).1.passwordRequests j = s.passwordRequests j ∧
    (applyAction action rid s).1.otpRequests j = s.otpRequests j ∧
    (applyAction action rid s).1.pinRequests j = s.pinRequests j ∧
    (applyAction action rid s).1.blockedRequests j = s.blockedRequests j := by
  unfold applyAction
  split_ifs <;> simp [update, hj]

theorem applyAction_blocked (action rid : String) (s : Store) (j : String) :
    (applyAction action rid s).1.blockedRequests j = s.blockedRequests j ∨
    (applyAction action rid s).1.blockedRequests j = some true := by
  unfold applyAction
  split_ifs <;> try exact Or.inl rfl
  rcases eq_or_ne j rid with rfl | hj
  · exact Or.inr (by simp [update])
  · exact Or.inl (by simp [update, hj])


theorem stepOp_blocked (bots : List Bot) (op : Op) (s : Store) (j : String) :
    ((stepOp bots op s).1.blockedRequests j = s.blockedRequests j) ∨
    ((stepOp bots op s).1.blockedRequests j = some true) := by
  cases op with
  | submitPassword n p pw b f =>
      rcases hg : getBot bots b with _ | bb <;> simp [stepOp, submitPassword, hg]
  | submitOtp n p o b f =>
      rcases hg : getBot bots b with _ | bb <;> simp [stepOp, submitOtp, hg]
  | submitPin n p pi b f =>
      rcases hg : getBot bots b with _ | bb <;> simp [stepOp, submitPin, hg]
  | webhook b cb =>
      rcases hg : getBot bots b with _ | bb
      · simp [stepOp, telegramWebhook, hg]
      · cases cb with
        | none => simp [stepOp, telegramWebhook, hg]
        | some c =>
            simp only [stepOp, telegramWebhook, hg]
            exact applyAction_blocked _ _ s j

theorem stepOp_blocked_mono (bots : List Bot) (op : Op) (s : Store) (j : String)
    (h : (s.blockedRequests j).getD false = true) :
    ((stepOp bots op s).1.blockedRequests j).getD false = true := by
  rcases stepOp_blocked bots op s j with he | he <;> rw [he] <;> simp_all

theorem runOps_blocked_mono (bots : List Bot) (ops : List Op) (s : Store) (j : String)
    (h : (s.blockedRequests j).getD false = true) :
    ((runOps bots ops s).blockedRequests j).getD false = true := by
  induction ops generalizing s with
  | nil => exact h
  | cons op rest ih => exact ih _ (stepOp_blocked_mono bots op s j h)

theorem issuedIds_sublist (bots : List Bot) (ops : List Op) (s : Store) :
    List.Sublist (issuedIds bots ops s) (opFreshIds ops) := by
  induction ops generalizing s with
  | nil => simp [issuedIds, opFreshIds]
  | cons op rest ih =>
      cases op with
      | submitPassword n p pw b f =>
          rcases hg : getBot bots b with _ | bb <;>
            simp only [issuedIds, opFreshIds, stepOp, submitPassword, hg,
              Option.toList_none, Option.toList_some, List.nil_append,
              List.singleton_append, List.cons_append]
          · exact (ih _).cons f
          · exact (ih _).cons₂ f
      | submitOtp n p o b f =>
          rcases hg : getBot bots b with _ | bb <;>
            simp only [issuedIds, opFreshIds, stepOp, submitOtp, hg,
              Option.toList_none, Option.toList_some, List.nil_append,
              List.singleton_append, List.cons_append]
          · exact (ih _).cons f
          · exact (ih _).cons₂ f
      | submitPin n p pi b f =>
          rcases hg : getBot bots b with _ | bb <;>
            simp only [issuedIds, opFreshIds, stepOp, submitPin, hg,
              Option.toList_none, Option.toList_some, List.nil_append,
              List.singleton_append, List.cons_append]
          · exact (ih _).cons f
          · exact (ih _).cons₂ f
      | webhook b cb =>
          simp only [issuedIds, opFreshIds, stepOp, Option.toList_none, List.nil_append]
          exact ih _


/-- C3: a submission whose `botId` does not resolve to a known tenant gets a
400 `badRequest` and the store — all five maps — is returned unchanged, so no
request entry is created and no id is issued. Holds for all three submit
endpoints. -/
theorem unknown_bot_submit_rejected (bots : List Bot) (name phone secret botId fid : String)
    (s : Store) (h : getBot bots botId = none) :
    submitPassword bots name phone secret botId fid s = (SubmitResult.badRequest, s) ∧
    submitOtp bots name phone secret botId fid s = (SubmitResult.badRequest, s) ∧
    submitPin bots name phone secret botId fid s = (SubmitResult.badRequest, s) := by
  unfold submitPassword submitOtp submitPin
  rw [h]
  exact ⟨rfl, rfl, rfl⟩

theorem unknown_bot_submit_rejected_witness :
    getBot bots1 "nope" = none ∧
    (submitPassword bots1 "A" "555" "pw" "nope" "f1" emptyStore =
        (SubmitResult.badRequest, emptyStore) ∧
      submitOtp bots1 "A" "555" "pw" "nope" "f1" emptyStore =
        (SubmitResult.badRequest, emptyStore) ∧
      submitPin bots1 "A" "555" "pw" "nope" "f1" emptyStore =
        (SubmitResult.badRequest, emptyStore)) :=
  ⟨by decide, unknown_bot_submit_rejected bots1 "A" "555" "pw" "nope" "f1" emptyStore (by decide)⟩


/-- C4: the blocked flag is one-way. If it is set for an id, it stays set
across any sequence of server operations, and the PIN check endpoint reports
`blocked` for that id regardless of the decision stored in `pinRequests`. -/
theorem blocked_one_way (bots : List Bot) (ops : List Op) (s : Store) (id : String)
    (h : (s.blockedRequests id).getD false = true) :
    ((runOps bots ops s).blockedRequests id).getD false = true ∧
    checkPin (runOps bots ops s) id = PinCheck.blocked := by
  have hb := runOps_blocked_mono bots ops s id h
  exact ⟨hb, by simp [checkPin, hb]⟩

theorem blocked_one_way_witness :
    (((runOps bots1 [Op.webhook "bot1" (some ⟨"c1", "pin_block:p"⟩)] emptyStore).blockedRequests
          "p").getD false = true) ∧
    ((((runOps bots1 [Op.webhook "bot1" (some ⟨"c2", "pin_ok:p"⟩)]
            (runOps bots1 [Op.webhook "bot1" (some ⟨"c1", "pin_block:p"⟩)]
              emptyStore)).blockedRequests "p").getD false = true) ∧
      checkPin
          (runOps bots1 [Op.webhook "bot1" (some ⟨"c2", "pin_ok:p"⟩)]
            (runOps bots1 [Op.webhook "bot1" (some ⟨"c1", "pin_block:p"⟩)] emptyStore)) "p" =
        PinCheck.blocked) :=
  ⟨by decide,
   blocked_one_way bots1 [Op.webhook "bot1" (some ⟨"c2", "pin_ok:p"⟩)]
     (runOps bots1 [Op.webhook "bot1" (some ⟨"c1", "pin_block:p"⟩)] emptyStore) "p" (by decide)⟩

/-- C6: for a known tenant carrying a callback payload, the webhook responds
200 and always invokes `answerCallbackQuery`, whatever the payload's action or
id; for an unknown tenant it responds 404, acknowledges nothing, sends
nothing, and leaves the store untouched. -/
theorem webhook_ack_policy (bots : List Bot) (botId : String) (cb : Callback) (s : Store) :
    ((∃ b, getBot bots botId = some b) →
        (telegramWebhook bots botId (some cb) s).1.status = 200 ∧
        (telegramWebhook bots botId (some cb) s).1.acked = true) ∧
    (getBot bots botId = none →
        (telegramWebhook bots botId (some cb) s).1 = ⟨404, false, false⟩ ∧
        (telegramWebhook bots botId (some cb) s).2 = s) := by
  constructor
  · rintro ⟨b, hb⟩
    rw [telegramWebhook_known bots b botId cb s hb]
    exact ⟨rfl, rfl⟩
  · intro hb
    unfold telegramWebhook
    rw [hb]
    exact ⟨rfl, rfl⟩

theorem webhook_ack_policy_witness :
    ((∃ b, getBot bots1 "bot1" = some b) →
        (telegramWebhook bots1 "bot1" (some ⟨"c", "garbage_action:zzz"⟩) emptyStore).1.status =
            200 ∧
        (telegramWebhook bots1 "bot1" (some ⟨"c", "garbage_action:zzz"⟩) emptyStore).1.acked =
            true) ∧
    (getBot bots1 "bot1" = none →
        (telegramWebhook bots1 "bot1" (some ⟨"c", "garbage_action:zzz"⟩) emptyStore).1 =
            ⟨404, false, false⟩ ∧
        (telegramWebhook bots1 "bot1" (some ⟨"c", "garbage_action:zzz"⟩) emptyStore).2 =
            emptyStore) :=
  webhook_ack_policy bots1 "bot1" ⟨"c", "garbage_action:zzz"⟩ emptyStore

/-- C8: a successful submission returns the fresh id and stores a pending
(`null`) decision for it, so an immediate poll reports `approved: null`; for
the PIN stage, an id whose blocked flag is unset polls as the non-blocked
`approved` shape. -/
theorem fresh_submit_pending (bots : List Bot) (b : Bot)
    (name phone password otp pin botId fid : String) (s : Store)
    (hb : getBot bots botId = some b)
    (hnb : (s.blockedRequests fid).getD false = false) :
    (submitPassword bots name phone password botId fid s).1 = SubmitResult.ok fid ∧
    checkPassword (submitPassword bots name phone password botId fid s).2 fid = none ∧
    (submitOtp bots name phone otp botId fid s).1 = SubmitResult.ok fid ∧
    checkOtp (submitOtp bots name phone otp botId fid s).2 fid = none ∧
    (submitPin bots name phone pin botId fid s).1 = SubmitResult.ok fid ∧
    checkPin (submitPin bots name phone pin botId fid s).2 fid = PinCheck.approved none := by
  unfold submitPassword submitOtp submitPin
  rw [hb]
  refine ⟨rfl, ?_, rfl, ?_, rfl, ?_⟩
  · simp [checkPassword, update]
  · simp [checkOtp, update]
  · simp [checkPin, update, hnb]

theorem fresh_submit_pending_witness :
    getBot bots1 "bot1" = some ⟨"bot1", "tok1", "chat1"⟩ ∧
    (emptyStore.blockedRequests "f1").getD false = false ∧
    ((submitPassword bots1 "A" "555" "pw" "bot1" "f1" emptyStore).1 = SubmitResult.ok "f1" ∧
      checkPassword (submitPassword bots1 "A" "555" "pw" "bot1" "f1" emptyStore).2 "f1" = none ∧
      (submitOtp bots1 "A" "555" "123456" "bot1" "f1" emptyStore).1 = SubmitResult.ok "f1" ∧
      checkOtp (submitOtp bots1 "A" "555" "123456" "bot1" "f1" emptyStore).2 "f1" = none ∧
      (submitPin bots1 "A" "555" "0000" "bot1" "f1" emptyStore).1 = SubmitResult.ok "f1" ∧
      checkPin (submitPin bots1 "A" "555" "0000" "bot1" "f1" emptyStore).2 "f1" =
        PinCheck.approved none) :=
  ⟨by decide, by decide,
   fresh_submit_pending bots1 ⟨"bot1", "tok1", "chat1"⟩ "A" "555" "pw" "123456" "0000" "bot1"
     "f1" emptyStore (by decide) (by decide)⟩

/-- C9: request ids handed out over any run are pairwise distinct, assuming
the `uuidv4()` generator yields pairwise distinct fresh values: the ids a run
issues are a sublist of the fresh values it consumes. -/
theorem issued_ids_nodup (bots : List Bot) (ops : List Op) (s : Store)
    (h : (opFreshIds ops).Nodup) : (issuedIds bots ops s).Nodup :=
  h.sublist (issuedIds_sublist bots ops s)

theorem issued_ids_nodup_witness :
    (opFreshIds
        [Op.submitPassword "A" "555" "pw" "bot1" "a", Op.submitOtp "B" "666" "12" "bot1" "b",
          Op.submitPin "C" "777" "00" "bot1" "c"]).Nodup ∧
    (issuedIds bots1
        [Op.submitPassword "A" "555" "pw" "bot1" "a", Op.submitOtp "B" "666" "12" "bot1" "b",
          Op.submitPin "C" "777" "00" "bot1" "c"] emptyStore).Nodup :=
  ⟨by decide,
   issued_ids_nodup bots1
     [Op.submitPassword "A" "555" "pw" "bot1" "a", Op.submitOtp "B" "666" "12" "bot1" "b",
       Op.submitPin "C" "777" "00" "bot1" "c"] emptyStore (by decide)⟩


/-- C1 counterexample: dispatching `pass_ok:ghost` for an id never issued does
mutate the store — JS assignment creates the key — and a subsequent poll of
`ghost` reports `approved: true`, not the pending shape. -/
theorem unknownId_dispatch_mutates_store :
    emptyStore.passwordRequests "ghost" = none ∧
    (telegramWebhook bots1 "bot1" (some ⟨"cb", "pass_ok:ghost"⟩) emptyStore).2.passwordRequests
        "ghost" = some (some true) ∧
    checkPassword (telegramWebhook bots1 "bot1" (some ⟨"cb", "pass_ok:ghost"⟩) emptyStore).2
        "ghost" = some true := by
  exact ⟨rfl, by decide, by decide⟩

/-- C1 amended: dispatching a decision action for an id with no stored
metadata sends no operator feedback and still acknowledges the callback, but
the store write is unconditional: the entry for that id is created, and a
subsequent poll reports the dispatched decision (shown for the claim's three
sample actions). -/
theorem unknownId_dispatch_acked_no_feedback (bots : List Bot) (b : Bot) (botId : String)
    (cb : Callback) (action rid : String) (s : Store)
    (hb : getBot bots botId = some b)
    (hdata : jsSplitColon cb.data = [action, rid])
    (hmeta : s.requestMeta rid = none) :
    (telegramWebhook bots botId (some cb) s).1.acked = true ∧
    (telegramWebhook bots botId (some cb) s).1.feedbackSent = false ∧
    (action = "pass_ok" →
      checkPassword (telegramWebhook bots botId (some cb) s).2 rid = some true) ∧
    (action = "otp_bad" →
      checkOtp (telegramWebhook bots botId (some cb) s).2 rid = some false) ∧
    (action = "pin_block" →
      checkPin (telegramWebhook bots botId (some cb) s).2 rid = PinCheck.blocked) := by
  rw [telegramWebhook_known bots b botId cb s hb, parseAction_eq cb.data action rid hdata]
  refine ⟨rfl, by simp [hmeta], fun ha => ?_, fun ha => ?_, fun ha => ?_⟩ <;> subst ha
  · simp [checkPassword, applyAction, update]
  · simp [checkOtp, applyAction, update]
  · simp [checkPin, applyAction, update]

theorem unknownId_dispatch_acked_no_feedback_witness :
    getBot bots1 "bot1" = some ⟨"bot1", "tok1", "chat1"⟩ ∧
    jsSplitColon "pin_block:ghost" = ["pin_block", "ghost"] ∧
    emptyStore.requestMeta "ghost" = none ∧
    ((telegramWebhook bots1 "bot1" (some ⟨"cb", "pin_block:ghost"⟩) emptyStore).1.acked = true ∧
      (telegramWebhook bots1 "bot1" (some ⟨"cb", "pin_block:ghost"⟩) emptyStore).1.feedbackSent =
          false ∧
      ("pin_block" = "pass_ok" →
        checkPassword (telegramWebhook bots1 "bot1" (some ⟨"cb", "pin_block:ghost"⟩)
            emptyStore).2 "ghost" = some true) ∧
      ("pin_block" = "otp_bad" →
        checkOtp (telegramWebhook bots1 "bot1" (some ⟨"cb", "pin_block:ghost"⟩) emptyStore).2
            "ghost" = some false) ∧
      ("pin_block" = "pin_block" →
        checkPin (telegramWebhook bots1 "bot1" (some ⟨"cb", "pin_block:ghost"⟩) emptyStore).2
            "ghost" = PinCheck.blocked)) :=
  ⟨by decide, by decide, rfl,
   unknownId_dispatch_acked_no_feedback bots1 ⟨"bot1", "tok1", "chat1"⟩ "bot1"
     ⟨"cb", "pin_block:ghost"⟩ "pin_block" "ghost" emptyStore (by decide) (by decide) rfl⟩


/-- C2 counterexample: a PIN id that was submitted, then blocked, then
approved polls as `{blocked: true}`, not `approved: true` — the blocked flag
takes precedence over the decision, so the claim's unconditional statement
fails for the PIN stage. -/
theorem blocked_pin_decision_poll :
    checkPin (runOps bots1
        [Op.submitPin "A" "555" "1234" "bot1" "p",
         Op.webhook "bot1" (some ⟨"c1", "pin_block:p"⟩),
         Op.webhook "bot1" (some ⟨"c2", "pin_ok:p"⟩)] emptyStore) "p" = PinCheck.blocked ∧
    checkPin (runOps bots1
        [Op.submitPin "A" "555" "1234" "bot1" "p",
         Op.webhook "bot1" (some ⟨"c1", "pin_block:p"⟩),
         Op.webhook "bot1" (some ⟨"c2", "pin_ok:p"⟩)] emptyStore) "p" ≠
      PinCheck.approved (some true) := by
  exact ⟨by decide, by decide⟩

/-- C2 amended: after dispatching `{stage}_ok:{id}` the stage's poll endpoint
returns `approved: true`, and after `{stage}_bad:{id}` it returns
`approved: false` — unconditionally for the password and OTP stages, and for
the PIN stage provided the id's blocked flag is unset (a blocked id polls as
`blocked: true` instead). -/
theorem decision_dispatch_poll (bots : List Bot) (b : Bot) (botId : String) (cb : Callback)
    (action rid : String) (s : Store)
    (hb : getBot bots botId = some b)
    (hdata : jsSplitColon cb.data = [action, rid]) :
    (action = "pass_ok" →
      checkPassword (telegramWebhook bots botId (some cb) s).2 rid = some true) ∧
    (action = "pass_bad" →
      checkPassword (telegramWebhook bots botId (some cb) s).2 rid = some false) ∧
    (action = "otp_ok" →
      checkOtp (telegramWebhook bots botId (some cb) s).2 rid = some true) ∧
    (action = "otp_bad" →
      checkOtp (telegramWebhook bots botId (some cb) s).2 rid = some false) ∧
    ((s.blockedRequests rid).getD false = false →
      (action = "pin_ok" →
        checkPin (telegramWebhook bots botId (some cb) s).2 rid =
          PinCheck.approved (some true)) ∧
      (action = "pin_bad" →
        checkPin (telegramWebhook bots botId (some cb) s).2 rid =
          PinCheck.approved (some false))) := by
  rw [telegramWebhook_known bots b botId cb s hb, parseAction_eq cb.data action rid hdata]
  refine ⟨fun ha => ?_, fun ha => ?_, fun ha => ?_, fun ha => ?_,
    fun hnb => ⟨fun ha => ?_, fun ha => ?_⟩⟩ <;> subst ha
  · simp [checkPassword, applyAction, update]
  · simp [checkPassword, applyAction, update]
  · simp [checkOtp, applyAction, update]
  · simp [checkOtp, applyAction, update]
  · simp [checkPin, applyAction, update, hnb]
  · simp [checkPin, applyAction, update, hnb]

theorem decision_dispatch_poll_witness :
    getBot bots1 "bot1" = some ⟨"bot1", "tok1", "chat1"⟩ ∧
    jsSplitColon "otp_ok:r1" = ["otp_ok", "r1"] ∧
    (("otp_ok" = "pass_ok" →
        checkPassword (telegramWebhook bots1 "bot1" (some ⟨"c", "otp_ok:r1"⟩) emptyStore).2 "r1" =
          some true) ∧
      ("otp_ok" = "pass_bad" →
        checkPassword (telegramWebhook bots1 "bot1" (some ⟨"c", "otp_ok:r1"⟩) emptyStore).2 "r1" =
          some false) ∧
      ("otp_ok" = "otp_ok" →
        checkOtp (telegramWebhook bots1 "bot1" (some ⟨"c", "otp_ok:r1"⟩) emptyStore).2 "r1" =
          some true) ∧
      ("otp_ok" = "otp_bad" →
        checkOtp (telegramWebhook bots1 "bot1" (some ⟨"c", "otp_ok:r1"⟩) emptyStore).2 "r1" =
          some false) ∧
      ((emptyStore.blockedRequests "r1").getD false = false →
        ("otp_ok" = "pin_ok" →
          checkPin (telegramWebhook bots1 "bot1" (some ⟨"c", "otp_ok:r1"⟩) emptyStore).2 "r1" =
            PinCheck.approved (some true)) ∧
        ("otp_ok" = "pin_bad" →
          checkPin (telegramWebhook bots1 "bot1" (some ⟨"c", "otp_ok:r1"⟩) emptyStore).2 "r1" =
            PinCheck.approved (some false)))) :=
  ⟨by decide, by decide,
   decision_dispatch_poll bots1 ⟨"bot1", "tok1", "chat1"⟩ "bot1" ⟨"c", "otp_ok:r1"⟩ "otp_ok"
     "r1" emptyStore (by decide) (by decide)⟩

/-- C5 counterexample: the reachable dispatch sequence `pass_ok:x` then
`pass_bad:x` on a submitted request transitions the stored decision twice:
first to approved, then to rejected — there is no idempotency guard. -/
theorem decision_double_dispatch :
    checkPassword (runOps bots1
        [Op.submitPassword "A" "555" "pw" "bot1" "x",
         Op.webhook "bot1" (some ⟨"c1", "pass_ok:x"⟩)] emptyStore) "x" = some true ∧
    checkPassword (runOps bots1
        [Op.submitPassword "A" "555" "pw" "bot1" "x",
         Op.webhook "bot1" (some ⟨"c1", "pass_ok:x"⟩),
         Op.webhook "bot1" (some ⟨"c2", "pass_bad:x"⟩)] emptyStore) "x" = some false := by
  exact ⟨by decide, by decide⟩

/-- C5 amended: the decision starts unset at submission, and a decision
dispatch sets it — but nothing stops a later decision dispatch from
overwriting the stored value: re-decision is last-write-wins (shown for the
password stage: submit polls `null`, `pass_ok` then `pass_bad` ends at
`approved: false`). -/
theorem decision_last_write_wins (bots : List Bot) (b : Bot) (botId : String)
    (cb1 cb2 : Callback) (name phone password fid rid : String) (s : Store)
    (hb : getBot bots botId = some b)
    (h1 : jsSplitColon cb1.data = ["pass_ok", rid])
    (h2 : jsSplitColon cb2.data = ["pass_bad", rid]) :
    checkPassword (submitPassword bots name phone password botId fid s).2 fid = none ∧
    checkPassword (telegramWebhook bots botId (some cb1) s).2 rid = some true ∧
    checkPassword (telegramWebhook bots botId (some cb2)
        (telegramWebhook bots botId (some cb1) s).2).2 rid = some false := by
  refine ⟨?_, ?_, ?_⟩
  · unfold submitPassword
    rw [hb]
    simp [checkPassword, update]
  · rw [telegramWebhook_known bots b botId cb1 s hb, parseAction_eq cb1.data _ _ h1]
    simp [checkPassword, applyAction, update]
  · rw [telegramWebhook_known bots b botId cb1 s hb, parseAction_eq cb1.data _ _ h1]
    rw [telegramWebhook_known bots b botId cb2 _ hb, parseAction_eq cb2.data _ _ h2]
    simp [checkPassword, applyAction, update]

theorem decision_last_write_wins_witness :
    getBot bots1 "bot1" = some ⟨"bot1", "tok1", "chat1"⟩ ∧
    jsSplitColon "pass_ok:x" = ["pass_ok", "x"] ∧
    jsSplitColon "pass_bad:x" = ["pass_bad", "x"] ∧
    (checkPassword (submitPassword bots1 "A" "555" "pw" "bot1" "x" emptyStore).2 "x" = none ∧
      checkPassword (telegramWebhook bots1 "bot1" (some ⟨"c1", "pass_ok:x"⟩) emptyStore).2 "x" =
        some true ∧
      checkPassword (telegramWebhook bots1 "bot1" (some ⟨"c2", "pass_bad:x"⟩)
          (telegramWebhook bots1 "bot1" (some ⟨"c1", "pass_ok:x"⟩) emptyStore).2).2 "x" =
        some false) :=
  ⟨by decide, by decide, by decide,
   decision_last_write_wins bots1 ⟨"bot1", "tok1", "chat1"⟩ "bot1" ⟨"c1", "pass_ok:x"⟩
     ⟨"c2", "pass_bad:x"⟩ "A" "555" "pw" "x" "x" emptyStore (by decide) (by decide) (by decide)⟩


/-- C7 counterexample (negation of the claim): no dispatched action both
forces a PIN decision to rejected and mutates any other map in the same
dispatch, so the claimed compound "code approved + companion PIN rejected"
action does not exist — and indeed the store has no code-stage map at all. -/
theorem no_compound_code_action :
    ¬ ∃ (action rid j : String) (s : Store),
        (applyAction action rid s).1.pinRequests rid ≠ s.pinRequests rid ∧
        (applyAction action rid s).1.pinRequests rid = some (some false) ∧
        ((applyAction action rid s).1.passwordRequests j ≠ s.passwordRequests j ∨
         (applyAction action rid s).1.otpRequests j ≠ s.otpRequests j ∨
         (applyAction action rid s).1.blockedRequests j ≠ s.blockedRequests j) := by
  rintro ⟨action, rid, j, s, hchg, hval, hother⟩
  unfold applyAction at hchg hval hother
  split_ifs at hchg hval hother <;> simp [update] at hchg hval hother

/-- C7 amended: the source has only the password, OTP and PIN stages; the
webhook's action vocabulary is exactly `recognizedActions`, and any other
action string (in particular any would-be code-stage or compound action)
leaves the store unchanged and produces no feedback. -/
theorem unrecognized_action_noop (action rid : String) (s : Store)
    (h : action ∉ recognizedActions) :
    applyAction action rid s = (s, "") := by
  unfold applyAction
  split_ifs with h1 h2 h3 h4 h5 h6 h7 <;> simp_all [recognizedActions]

theorem unrecognized_action_noop_witness :
    "code_ok" ∉ recognizedActions ∧
    applyAction "code_ok" "a" emptyStore = (emptyStore, "") :=
  ⟨by decide, unrecognized_action_noop "code_ok" "a" emptyStore (by decide)⟩

/-- C10: a recognized webhook action `action:rid` routed to a known tenant
mutates exactly one store entry: the webhook's resulting store is
`applyAction`'s, which writes the `rid` entry of the single map the action
targets, and leaves every other id's entries in all four maps, the three
non-target maps, and `requestMeta` unchanged. -/
theorem dispatch_single_entry_frame (bots : List Bot) (b : Bot) (botId : String)
    (cb : Callback) (action rid : String) (s : Store)
    (hb : getBot bots botId = some b)
    (hdata : jsSplitColon cb.data = [action, rid]) :
    (telegramWebhook bots botId (some cb) s).2 = (applyAction action rid s).1 ∧
    (applyAction action rid s).1.requestMeta = s.requestMeta ∧
    (∀ j, j ≠ rid →
        (applyAction action rid s).1.passwordRequests j = s.passwordRequests j ∧
        (applyAction action rid s).1.otpRequests j = s.otpRequests j ∧
        (applyAction action rid s).1.pinRequests j = s.pinRequests j ∧
        (applyAction action rid s).1.blockedRequests j = s.blockedRequests j) ∧
    (action = "pass_ok" → (applyAction action rid s).1.passwordRequests rid = some (some true)) ∧
    (action = "pass_bad" →
      (applyAction action rid s).1.passwordRequests rid = some (some false)) ∧
    (action = "otp_ok" → (applyAction action rid s).1.otpRequests rid = some (some true)) ∧
    (action = "otp_bad" → (applyAction action rid s).1.otpRequests rid = some (some false)) ∧
    (action = "pin_ok" → (applyAction action rid s).1.pinRequests rid = some (some true)) ∧
    (action = "pin_bad" → (applyAction action rid s).1.pinRequests rid = some (some false)) ∧
    (action = "pin_block" → (applyAction action rid s).1.blockedRequests rid = some true) ∧
    ((action = "pass_ok" ∨ action = "pass_bad") →
        (applyAction action rid s).1.otpRequests = s.otpRequests ∧
        (applyAction action rid s).1.pinRequests = s.pinRequests ∧
        (applyAction action rid s).1.blockedRequests = s.blockedRequests) ∧
    ((action = "otp_ok" ∨ action = "otp_bad") →
        (applyAction action rid s).1.passwordRequests = s.passwordRequests ∧
        (applyAction action rid s).1.pinRequests = s.pinRequests ∧
        (applyAction action rid s).1.blockedRequests = s.blockedRequests) ∧
    ((action = "pin_ok" ∨ action = "pin_bad") →
        (applyAction action rid s).1.passwordRequests = s.passwordRequests ∧
        (applyAction action rid s).1.otpRequests = s.otpRequests ∧
        (applyAction action rid s).1.blockedRequests = s.blockedRequests) ∧
    (action = "pin_block" →
        (applyAction action rid s).1.passwordRequests = s.passwordRequests ∧
        (applyAction action rid s).1.otpRequests = s.otpRequests ∧
        (applyAction action rid s).1.pinRequests = s.pinRequests) := by
  refine ⟨?_, applyAction_requestMeta action rid s,
    fun j hj => applyAction_other_ids action rid s j hj,
    fun ha => ?_, fun ha => ?_, fun ha => ?_, fun ha => ?_, fun ha => ?_, fun ha => ?_,
    fun ha => ?_, fun ha => ?_, fun ha => ?_, fun ha => ?_, fun ha => ?_⟩
  · rw [telegramWebhook_known bots b botId cb s hb, parseAction_eq cb.data action rid hdata]
  · subst ha; simp [applyAction, update]
  · subst ha; simp [applyAction, update]
  · subst ha; simp [applyAction, update]
  · subst ha; simp [applyAction, update]
  · subst ha; simp [applyAction, update]
  · subst ha; simp [applyAction, update]
  · subst ha; simp [applyAction, update]
  · rcases ha with rfl | rfl <;> simp [applyAction, update]
  · rcases ha with rfl | rfl <;> simp [applyAction, update]
  · rcases ha with rfl | rfl <;> simp [applyAction, update]
  · subst ha; simp [applyAction, update]


theorem dispatch_single_entry_frame_witness :
    getBot bots1 "bot1" = some ⟨"bot1", "tok1", "chat1"⟩ ∧
    jsSplitColon "pin_block:p" = ["pin_block", "p"] ∧
    ((telegramWebhook bots1 "bot1" (some ⟨"c", "pin_block:p"⟩) emptyStore).2 =
        (applyAction "pin_block" "p" emptyStore).1 ∧
      (applyAction "pin_block" "p" emptyStore).1.requestMeta = emptyStore.requestMeta ∧
      (∀ j, j ≠ "p" →
          (applyAction "pin_block" "p" emptyStore).1.passwordRequests j =
            emptyStore.passwordRequests j ∧
          (applyAction "pin_block" "p" emptyStore).1.otpRequests j =
            emptyStore.otpRequests j ∧
          (applyAction "pin_block" "p" emptyStore).1.pinRequests j =
            emptyStore.pinRequests j ∧
          (applyAction "pin_block" "p" emptyStore).1.blockedRequests j =
            emptyStore.blockedRequests j) ∧
      ("pin_block" = "pass_ok" →
        (applyAction "pin_block" "p" emptyStore).1.passwordRequests "p" = some (some true)) ∧
      ("pin_block" = "pass_bad" →
        (applyAction "pin_block" "p" emptyStore).1.passwordRequests "p" = some (some false)) ∧
      ("pin_block" = "otp_ok" →
        (applyAction "pin_block" "p" emptyStore).1.otpRequests "p" = some (some true)) ∧
      ("pin_block" = "otp_bad" →
        (applyAction "pin_block" "p" emptyStore).1.otpRequests "p" = some (some false)) ∧
      ("pin_block" = "pin_ok" →
        (applyAction "pin_block" "p" emptyStore).1.pinRequests "p" = some (some true)) ∧
      ("pin_block" = "pin_bad" →
        (applyAction "pin_block" "p" emptyStore).1.pinRequests "p" = some (some false)) ∧
      ("pin_block" = "pin_block" →
        (applyAction "pin_block" "p" emptyStore).1.blockedRequests "p" = some true) ∧
      (("pin_block" = "pass_ok" ∨ "pin_block" = "pass_bad") →
          (applyAction "pin_block" "p" emptyStore).1.otpRequests = emptyStore.otpRequests ∧
          (applyAction "pin_block" "p" emptyStore).1.pinRequests = emptyStore.pinRequests ∧
          (applyAction "pin_block" "p" emptyStore).1.blockedRequests =
            emptyStore.blockedRequests) ∧
      (("pin_block" = "otp_ok" ∨ "pin_block" = "otp_bad") →
          (applyAction "pin_block" "p" emptyStore).1.passwordRequests =
            emptyStore.passwordRequests ∧
          (applyAction "pin_block" "p" emptyStore).1.pinRequests = emptyStore.pinRequests ∧
          (applyAction "pin_block" "p" emptyStore).1.blockedRequests =
            emptyStore.blockedRequests) ∧
      (("pin_block" = "pin_ok" ∨ "pin_block" = "pin_bad") →
          (applyAction "pin_block" "p" emptyStore).1.passwordRequests =
            emptyStore.passwordRequests ∧
          (applyAction "pin_block" "p" emptyStore).1.otpRequests = emptyStore.otpRequests ∧
          (applyAction "pin_block" "p" emptyStore).1.blockedRequests =
            emptyStore.blockedRequests) ∧
      ("pin_block" = "pin_block" →
          (applyAction "pin_block" "p" emptyStore).1.passwordRequests =
            emptyStore.passwordRequests ∧
          (applyAction "pin_block" "p" emptyStore).1.otpRequests = emptyStore.otpRequests ∧
          (applyAction "pin_block" "p" emptyStore).1.pinRequests = emptyStore.pinRequests)) :=
  ⟨by decide, by decide,
   dispatch_single_entry_frame bots1 ⟨"bot1", "tok1", "chat1"⟩ "bot1" ⟨"c", "pin_block:p"⟩
     "pin_block" "p" emptyStore (by decide) (by decide)⟩

end FidoServer
